import Mathlib

/-!
Verification development for the Azure image-transformation function
(src/function_app.py).  The single HTTP handler `dynamicmediahandler` is
shallowly embedded as a pure Lean function over an explicit environment
that supplies the externals: the two blob containers (as fallible key to
bytes maps), the image decoder/encoder (Pillow), and whether the upload
to the output container succeeds.  Exceptions in the Python code are
modelled with Option/Except; the real arithmetic of the geometry step is
modelled with exact fractions over Int (every division performed by the
source on the inputs considered is exact in binary floating point, so
exact fractions coincide with Python's float results there); string case
mapping is modelled on the ASCII range (all filenames and formats in play
are ASCII).
-/

/-- Raw bytes of a blob or of an encoded image. -/
abbrev Bytes := List Nat

/-- Python truthiness of an optional query-parameter string:
None and the empty string are falsy. -/
def truthy : Option String → Bool
  | none => false
  | some s => !s.data.isEmpty

/-- Python f-string rendering of an optional string: None renders as the
literal text None, a string renders as itself. -/
def render : Option String → String
  | none => "None"
  | some s => s

/-- Python str.upper(), modelled on the ASCII range. -/
def pyUpper (s : String) : String := String.mk (s.data.map Char.toUpper)

/-- Python str.lower(), modelled on the ASCII range. -/
def pyLower (s : String) : String := String.mk (s.data.map Char.toLower)

/-- Numeric value of a list of decimal digit characters. -/
def digitsVal (cs : List Char) : Nat :=
  cs.foldl (fun a c => 10 * a + (c.toNat - 48)) 0

/-- Python int(s) on a string: optional surrounding whitespace, optional
single sign, then at least one decimal digit; anything else raises a
ValueError, modelled as none. -/
def pyInt? (s : String) : Option Int :=
  let t := ((s.data.dropWhile Char.isWhitespace).reverse.dropWhile Char.isWhitespace).reverse
  match t with
  | '-' :: ds =>
    if !ds.isEmpty && ds.all Char.isDigit then some (-(digitsVal ds : Int)) else none
  | '+' :: ds =>
    if !ds.isEmpty && ds.all Char.isDigit then some ((digitsVal ds : Int)) else none
  | ds =>
    if !ds.isEmpty && ds.all Char.isDigit then some ((digitsVal ds : Int)) else none

/-- Exact fractions over Int: the model of the real (Python float)
arithmetic of the geometry step.  Smart constructors keep the denominator
positive; denominators are never zero on the guarded paths where the
source would not raise a ZeroDivisionError. -/
structure Frac where
  num : Int
  den : Int
deriving DecidableEq

/-- Embed an integer as a fraction. -/
def Frac.ofInt (n : Int) : Frac := ⟨n, 1⟩

/-- Normalize the sign so the denominator is positive (when nonzero). -/
def Frac.norm (f : Frac) : Frac := if f.den < 0 then ⟨-f.num, -f.den⟩ else f

/-- Fraction multiplication. -/
def Frac.mul (a b : Frac) : Frac := Frac.norm ⟨a.num * b.num, a.den * b.den⟩

/-- Fraction division. -/
def Frac.div (a b : Frac) : Frac := Frac.norm ⟨a.num * b.den, a.den * b.num⟩

/-- Fraction subtraction. -/
def Frac.sub (a b : Frac) : Frac :=
  Frac.norm ⟨a.num * b.den - b.num * a.den, a.den * b.den⟩

/-- Comparison a ≤ b, valid for positive denominators. -/
def Frac.le (a b : Frac) : Bool := decide (a.num * b.den ≤ b.num * a.den)

/-- Absolute value, valid for positive denominators. -/
def Frac.abs (f : Frac) : Frac := ⟨|f.num|, f.den⟩

/-- math.floor, valid for positive denominators. -/
def Frac.floor (f : Frac) : Int := f.num.fdiv f.den

/-- math.ceil, valid for positive denominators. -/
def Frac.ceil (f : Frac) : Int := -((-f.num).fdiv f.den)

/-- Python int() applied to a real value: truncation toward zero. -/
def Frac.trunc (f : Frac) : Int :=
  if 0 ≤ f.num then f.num.fdiv f.den else -((-f.num).fdiv f.den)

/-- Python s.split on the dot character: the list of maximal dot-free
segments, with empty segments kept (split of the empty list is one empty
segment, like the Python s.split('.') contract). -/
def splitOnDot : List Char → List (List Char)
  | [] => [[]]
  | c :: rest =>
    if c = '.' then [] :: splitOnDot rest
    else
      match splitOnDot rest with
      | [] => [[c]]
      | h :: t => (c :: h) :: t

/-- filename.split('.') as a list of strings. -/
def pySplitDot (s : String) : List String :=
  (splitOnDot s.data).map String.mk

/-- The MIME_TYPES dict of the source: extension (uppercase) to MIME type. -/
def MIME_TYPES : String → Option String
  | "JPEG" => some "image/jpeg"
  | "JPG" => some "image/jpeg"
  | "PNG" => some "image/png"
  | "BMP" => some "image/bmp"
  | "GIF" => some "image/gif"
  | _ => none

/-- Lines 50-52 of the source: a falsy filename never reaches this point;
a filename without a dot is replaced by the default image name before any
extension or key derivation. -/
def effectiveName (filename0 : Option String) : String :=
  let s := filename0.getD ""
  if s.data.contains '.' then s else "no-image.jpg"

/-- Line 55: original_extension = filename.split('.')[-1].upper(). -/
def original_extension_of (fn : String) : String :=
  pyUpper ((pySplitDot fn).getLastD "")

/-- Line 59: the derived output filename (cache key).  Note the base name
is filename.split('.')[0], the segment before the FIRST dot. -/
def outputFilenameOf (fn : String) (width height format : Option String) : String :=
  ((pySplitDot fn).headD "") ++ "_" ++ render width ++ "_" ++ render height ++ "."
    ++ (if truthy format then pyLower (format.getD "")
        else pyLower (original_extension_of fn))

/-- A decoded in-memory image: dimensions plus an abstract pixel payload
tag that decoding and re-encoding carry along. -/
structure Img where
  w : Nat
  h : Nat
  pix : Nat
deriving DecidableEq

/-- Pillow's round_aspect helper inside Image.thumbnail:
min over the floor and the ceiling by the key function (the floor wins
ties, as Python's min keeps the first argument), then clamped to at
least 1. -/
def roundAspect (q : Frac) (key : Int → Frac) : Int :=
  max (if (key q.floor).le (key q.ceil) then q.floor else q.ceil) 1

/-- Pillow's Image.thumbnail size computation (the never-enlarge,
aspect-preserving bounding-box fit): given the image size (iw, ih) and the
requested box (tx, ty), the resulting size.  A division by zero or a
non-positive resize target raises inside Pillow, modelled as none. -/
def thumbnailFit (iw ih : Nat) (tx ty : Int) : Option (Nat × Nat) :=
  if (iw : Int) ≤ tx ∧ (ih : Int) ≤ ty then some (iw, ih)
  else if ih = 0 then none
  else
    let aspect : Frac := (Frac.ofInt (iw : Int)).div (Frac.ofInt (ih : Int))
    if ty = 0 then none
    else
      let p : Int × Int :=
        if aspect.le ((Frac.ofInt tx).div (Frac.ofInt ty)) then
          (roundAspect ((Frac.ofInt ty).mul aspect)
            (fun n => ((aspect.sub ((Frac.ofInt n).div (Frac.ofInt ty)))).abs), ty)
        else
          (tx, roundAspect ((Frac.ofInt tx).div aspect)
            (fun n => if n = 0 then Frac.ofInt 0
                      else ((aspect.sub ((Frac.ofInt tx).div (Frac.ofInt n)))).abs))
      if p.1 ≤ 0 ∨ p.2 ≤ 0 then none
      else some (p.1.toNat, p.2.toNat)

/-- Lines 112-124 of the source: the geometry step.  Each branch converts
the provided parameter strings with int() (failure raises, hence none),
computes the missing dimension by int-truncation of the exact ratio when
only one of width/height is given, and applies the thumbnail fit.  A zero
original dimension would raise a ZeroDivisionError, modelled as none. -/
def resizeStep (img : Img) (width height : Option String) : Option Img :=
  if truthy width = true ∧ truthy height = true then
    match pyInt? (width.getD ""), pyInt? (height.getD "") with
    | some w, some h =>
      match thumbnailFit img.w img.h w h with
      | some p => some { img with w := p.1, h := p.2 }
      | none => none
    | _, _ => none
  else if truthy width = true then
    match pyInt? (width.getD "") with
    | some w =>
      if img.w = 0 then none
      else
        match thumbnailFit img.w img.h w
                (((Frac.ofInt (img.h : Int)).mul
                   ((Frac.ofInt w).div (Frac.ofInt (img.w : Int)))).trunc) with
        | some p => some { img with w := p.1, h := p.2 }
        | none => none
    | none => none
  else if truthy height = true then
    match pyInt? (height.getD "") with
    | some h =>
      if img.h = 0 then none
      else
        match thumbnailFit img.w img.h
                (((Frac.ofInt (img.w : Int)).mul
                   ((Frac.ofInt h).div (Frac.ofInt (img.h : Int)))).trunc) h with
        | some p => some { img with w := p.1, h := p.2 }
        | none => none
    | none => none
  else some img

/-- The supported output formats of lines 132 and 141. -/
def supportedFormats : List String := ["JPEG", "PNG", "BMP", "GIF"]

/-- Lines 128-147: resolve the format to save in.  none means the
Unsupported-format 400 response. -/
def formatResolve (format : Option String) (original_extension : String) : Option String :=
  if truthy format = true then
    let f := pyUpper (format.getD "")
    let f2 := if f = "JPG" then "JPEG" else f
    if f2 ∈ supportedFormats then some f2 else none
  else
    if original_extension = "JPG" then some "JPEG"
    else if original_extension ∈ supportedFormats then some original_extension
    else none

/-- The externals of the handler: the two containers, the image codec and
whether the blob upload succeeds. -/
structure Env where
  assetsGet : String → Except String Bytes
  outputGet : String → Except String Bytes
  uploadOk : Bool
  decode : Bytes → Option Img
  encode : Img → String → Option Bytes

/-- Response body: binary blob or plain-text message. -/
inductive Body where
  | bin (b : Bytes) : Body
  | text (s : String) : Body
deriving DecidableEq

/-- The observable HTTP response. -/
structure HttpResp where
  status : Nat
  body : Body
  mimetype : Option String
  contentDisposition : Option String
deriving DecidableEq

/-- The 500 response of the generic processing handler, lines 166-171. -/
def procError : HttpResp :=
  { status := 500, body := Body.text "Error processing the image.",
    mimetype := none, contentDisposition := none }

/-- The 400 Unsupported-format response of lines 133-136 and 144-147. -/
def unsupported400 : HttpResp :=
  { status := 400, body := Body.text "Unsupported format.",
    mimetype := none, contentDisposition := none }

/-- Lines 77-97: fetch the original; on any error fall back to the
default image; if that also fails the request dies with the 500
download-error response.  The returned string is the updated filename
variable (which the rest of the source never reads again). -/
def resolveSource (env : Env) (filename : String) : Except Unit (String × Bytes) :=
  match env.assetsGet filename with
  | Except.ok b => Except.ok (filename, b)
  | Except.error _ =>
    match env.assetsGet "no-image.jpg" with
    | Except.ok b => Except.ok ("no-image.jpg", b)
    | Except.error _ => Except.error ()

/-- Lines 106-171, the transformation try-block: decode, resize, resolve
the save format, encode, upload, respond.  Any raised exception lands in
the generic except-handler, so decode, int(), geometry, encode and upload
failures all collapse to the 500 processing-error response. -/
def transformStep (env : Env) (blob_data : Bytes) (width height format : Option String)
    (original_extension output_filename : String) : HttpResp × Option (String × Bytes) :=
  match env.decode blob_data with
  | none => (procError, none)
  | some image =>
    match resizeStep image width height with
    | none => (procError, none)
    | some image2 =>
      match formatResolve format original_extension with
      | none => (unsupported400, none)
      | some fmt =>
        match env.encode image2 fmt with
        | none => (procError, none)
        | some out =>
          if env.uploadOk then
            ({ status := 200, body := Body.bin out,
               mimetype := some ((MIME_TYPES fmt).getD "application/octet-stream"),
               contentDisposition := some ("inline; filename=" ++ output_filename) },
             some (output_filename, out))
          else (procError, none)

/-- Lines 76-171: everything after the cache check.  Resolve the source,
short-circuit when no width, height or format was requested, otherwise
transform. -/
def afterCacheMiss (env : Env) (filename : String) (width height format : Option String)
    (mimetype output_filename original_extension : String) : HttpResp × Option (String × Bytes) :=
  match resolveSource env filename with
  | Except.error _ =>
    ({ status := 500, body := Body.text "Error downloading the image.",
       mimetype := none, contentDisposition := none }, none)
  | Except.ok fb =>
    if truthy width = false ∧ truthy height = false ∧ truthy format = false then
      ({ status := 200, body := Body.bin fb.2, mimetype := some mimetype,
         contentDisposition := none }, none)
    else
      transformStep env fb.2 width height format original_extension output_filename

/-- The whole handler, lines 35-171.  The second component records the
write performed on the output container (the key and bytes of the upload),
none when the request wrote nothing. -/
def dynamicmediahandler (env : Env) (filename0 width height format : Option String) :
    HttpResp × Option (String × Bytes) :=
  if truthy filename0 = true then
    let filename := effectiveName filename0
    let original_extension := original_extension_of filename
    let mimetype := (MIME_TYPES original_extension).getD "application/octet-stream"
    let output_filename := outputFilenameOf filename width height format
    match env.outputGet output_filename with
    | Except.ok data =>
      ({ status := 200, body := Body.bin data,
         mimetype := some ((MIME_TYPES (if truthy format then pyUpper (format.getD "")
                             else original_extension)).getD "application/octet-stream"),
         contentDisposition := some ("inline; filename=" ++ output_filename) }, none)
    | Except.error _ =>
      afterCacheMiss env filename width height format mimetype output_filename original_extension
  else
    ({ status := 400, body := Body.text "Filename is required.",
       mimetype := none, contentDisposition := none }, none)

/-! Concrete environments used by the per-claim counterexamples and
witnesses below.  Each encoder writes the image dimensions (and a format
tag) into the produced bytes, so the response body certifies the size the
engine computed. -/

/-- Store with only the placeholder present; nothing cached. -/
def E2 : Env :=
  { assetsGet := fun k => if k = "no-image.jpg" then Except.ok [9, 9] else Except.error "NotFound",
    outputGet := fun _ => Except.error "NotFound",
    uploadOk := true,
    decode := fun _ => none,
    encode := fun _ _ => none }

/-- A resolvable 4x4 source whose upload to the output store fails. -/
def E1 : Env :=
  { assetsGet := fun k => if k = "a.png" then Except.ok [1] else Except.error "nf",
    outputGet := fun _ => Except.error "nf",
    uploadOk := false,
    decode := fun _ => some ⟨4, 4, 0⟩,
    encode := fun _ _ => some [7, 7] }

/-- Both the requested source and the placeholder are absent. -/
def E3 : Env :=
  { assetsGet := fun _ => Except.error "nf",
    outputGet := fun _ => Except.error "nf",
    uploadOk := true,
    decode := fun _ => none,
    encode := fun _ _ => none }

/-- A resolvable decodable source, used with an unsupported format. -/
def E3b : Env :=
  { assetsGet := fun k => if k = "a.png" then Except.ok [1] else Except.error "nf",
    outputGet := fun _ => Except.error "nf",
    uploadOk := true,
    decode := fun _ => some ⟨4, 4, 0⟩,
    encode := fun _ _ => some [7, 7] }

/-- A resolvable source served without transformation parameters. -/
def E6 : Env :=
  { assetsGet := fun k => if k = "b.png" then Except.ok [3, 4] else Except.error "nf",
    outputGet := fun _ => Except.error "nf",
    uploadOk := true,
    decode := fun _ => none,
    encode := fun _ _ => none }

/-- A pre-populated output store at the expected derived key. -/
def E7 : Env :=
  { assetsGet := fun _ => Except.error "nf",
    outputGet := fun k => if k = "c_None_None.png" then Except.ok [5, 6] else Except.error "nf",
    uploadOk := true,
    decode := fun _ => none,
    encode := fun _ _ => none }

/-- A 400x200 source image, the test vector of the spec. -/
def E8 : Env :=
  { assetsGet := fun k => if k = "photo.png" then Except.ok [1, 2, 3] else Except.error "NotFound",
    outputGet := fun _ => Except.error "NotFound",
    uploadOk := true,
    decode := fun b => if b = [1, 2, 3] then some ⟨400, 200, 5⟩ else none,
    encode := fun img f => some [img.w, img.h, if f = "PNG" then 2 else 1] }

/-- A resolvable decodable source, used with a non-numeric width. -/
def E9 : Env :=
  { assetsGet := fun k => if k = "d.png" then Except.ok [1] else Except.error "nf",
    outputGet := fun _ => Except.error "nf",
    uploadOk := true,
    decode := fun _ => some ⟨10, 10, 0⟩,
    encode := fun _ _ => some [7, 7] }

/-- An output store whose get fails with an arbitrary non-NotFound error. -/
def E10 : Env :=
  { assetsGet := fun _ => Except.error "x",
    outputGet := fun _ => Except.error "boom",
    uploadOk := true,
    decode := fun _ => none,
    encode := fun _ _ => none }

/-! Helper lemmas about the dot-splitting function, used for the derived
key claims. -/

/-- splitOnDot never returns the empty list of segments. -/
lemma splitOnDot_ne_nil (cs : List Char) : splitOnDot cs ≠ [] := by
  induction cs with
  | nil => simp [splitOnDot]
  | cons c rest ih =>
    simp only [splitOnDot]
    split
    · simp
    · rcases h : splitOnDot rest with _ | ⟨a, t⟩ <;> simp

/-- Splitting a list whose head part is dot-free peels off that part. -/
lemma splitOnDot_append_dot (p q : List Char) (hp : '.' ∉ p) :
    splitOnDot (p ++ '.' :: q) = p :: splitOnDot q := by
  induction p with
  | nil => simp [splitOnDot]
  | cons c p ih =>
    have hc : c ≠ '.' := fun hcc => hp (by simp [hcc])
    have hp2 : '.' ∉ p := fun hm => hp (List.mem_cons_of_mem _ hm)
    rw [List.cons_append, splitOnDot, if_neg hc, ih hp2]

/-- A dot-free list splits into the single segment it is. -/
lemma splitOnDot_no_dot (e : List Char) (he : '.' ∉ e) : splitOnDot e = [e] := by
  induction e with
  | nil => rfl
  | cons c e ih =>
    have hc : c ≠ '.' := fun hcc => he (by simp [hcc])
    have he2 : '.' ∉ e := fun hm => he (List.mem_cons_of_mem _ hm)
    rw [splitOnDot, if_neg hc, ih he2]

/-- A list containing a dot splits into at least two segments. -/
lemma splitOnDot_append_dot_length (r e : List Char) :
    2 ≤ (splitOnDot (r ++ '.' :: e)).length := by
  induction r with
  | nil =>
    have h := splitOnDot_ne_nil e
    rcases hsp : splitOnDot e with _ | ⟨a, t⟩
    · exact absurd hsp h
    · simp [splitOnDot, hsp]
  | cons c r ih =>
    rw [List.cons_append, splitOnDot]
    split
    · rcases hsp : splitOnDot (r ++ '.' :: e) with _ | ⟨a, t⟩
      · exact absurd hsp (splitOnDot_ne_nil _)
      · simp
    · rcases hsp : splitOnDot (r ++ '.' :: e) with _ | ⟨a, t⟩
      · exact absurd hsp (splitOnDot_ne_nil _)
      · rw [hsp] at ih
        simp only [List.length_cons] at ih ⊢
        omega

/-- The last segment of a split only depends on the part after a dot. -/
lemma getLast?_splitOnDot_append (r e : List Char) :
    (splitOnDot (r ++ '.' :: e)).getLast? = (splitOnDot e).getLast? := by
  induction r with
  | nil =>
    rcases hsp : splitOnDot e with _ | ⟨a, t⟩
    · exact absurd hsp (splitOnDot_ne_nil e)
    · rw [List.nil_append, splitOnDot, if_pos rfl, hsp, List.getLast?_cons_cons]
  | cons c r ih =>
    rw [List.cons_append, splitOnDot]
    split
    · rcases hsp : splitOnDot (r ++ '.' :: e) with _ | ⟨a, t⟩
      · exact absurd hsp (splitOnDot_ne_nil _)
      · rw [hsp] at ih
        rw [List.getLast?_cons_cons, ih]
    · rcases hsp : splitOnDot (r ++ '.' :: e) with _ | ⟨a, t⟩
      · exact absurd hsp (splitOnDot_ne_nil _)
      · have hlen := splitOnDot_append_dot_length r e
        rw [hsp] at hlen ih
        rcases t with _ | ⟨b, t2⟩
        · simp at hlen
        · show ((c :: a) :: b :: t2).getLast? = (splitOnDot e).getLast?
          rw [List.getLast?_cons_cons] at ih ⊢
          exact ih

/-- Mapping String.mk commutes with headD. -/
lemma headD_map_mk (L : List (List Char)) :
    (L.map String.mk).headD "" = String.mk (L.headD []) := by
  cases L <;> rfl

/-- Mapping String.mk commutes with getLastD. -/
lemma getLastD_map_mk (L : List (List Char)) (hL : L ≠ []) :
    (L.map String.mk).getLastD "" = String.mk (L.getLastD []) := by
  rw [List.getLastD_eq_getLast?, List.getLastD_eq_getLast?, List.getLast?_map]
  rcases h : L.getLast? with _ | a
  · have h2 := List.getLast?_isSome.mpr hL
    rw [h] at h2
    simp at h2
  · rfl

/-- The geometry step dies (raising through int()) whenever a provided
width or height does not parse as an integer. -/
lemma resizeStep_parse_fail (img : Img) (w h : Option String)
    (hbad : (truthy w = true ∧ pyInt? (w.getD "") = none) ∨
            (truthy h = true ∧ pyInt? (h.getD "") = none)) :
    resizeStep img w h = none := by
  rcases hbad with ⟨hw, hwp⟩ | ⟨hh, hhp⟩
  · by_cases hth : truthy h = true
    · simp [resizeStep, hw, hth, hwp]
    · simp [resizeStep, hw, hth, hwp]
  · by_cases htw : truthy w = true
    · rcases hwp2 : pyInt? (w.getD "") with _ | v <;>
        simp [resizeStep, htw, hh, hhp, hwp2]
    · simp [resizeStep, htw, hh, hhp]

/-- A provided format that normalizes outside the supported set resolves
to the Unsupported-format rejection. -/
lemma formatResolve_unsupported (f ext : String)
    (hf : truthy (some f) = true)
    (hbad : (if pyUpper f = "JPG" then "JPEG" else pyUpper f) ∉ supportedFormats) :
    formatResolve (some f) ext = none := by
  simp only [formatResolve, hf, if_true, Option.getD_some]
  simp only [if_neg hbad]

/-- The cache-hit branch of the handler, fully evaluated. -/
lemma cache_hit_eq (env : Env) (fn0 w h f : Option String) (data : Bytes)
    (hfn : truthy fn0 = true)
    (hhit : env.outputGet (outputFilenameOf (effectiveName fn0) w h f) = Except.ok data) :
    dynamicmediahandler env fn0 w h f =
      ({ status := 200, body := Body.bin data,
         mimetype := some ((MIME_TYPES (if truthy f then pyUpper (f.getD "")
                             else original_extension_of (effectiveName fn0))).getD
                            "application/octet-stream"),
         contentDisposition :=
           some ("inline; filename=" ++ outputFilenameOf (effectiveName fn0) w h f) },
       none) := by
  simp only [dynamicmediahandler, hfn, if_true, hhit]

/-! The claim theorems. -/

/-- C10: any failure of the output-store get during the cache check, with
any error value whatsoever, is treated as a cache miss: the handler's
result is exactly the continuation that starts at source resolution, and
does not depend on the error. -/
theorem any_cache_get_error_proceeds_to_pipeline (env : Env) (fn0 w h f : Option String)
    (e : String)
    (hfn : truthy fn0 = true)
    (hmiss : env.outputGet (outputFilenameOf (effectiveName fn0) w h f) = Except.error e) :
    dynamicmediahandler env fn0 w h f =
      afterCacheMiss env (effectiveName fn0) w h f
        ((MIME_TYPES (original_extension_of (effectiveName fn0))).getD "application/octet-stream")
        (outputFilenameOf (effectiveName fn0) w h f)
        (original_extension_of (effectiveName fn0)) := by
  simp only [dynamicmediahandler, hfn, if_true, hmiss]

/-- C10 witness: a concrete run with a non-NotFound cache error proceeds
to the source-resolution continuation. -/
theorem any_cache_get_error_proceeds_to_pipeline_witness :
    dynamicmediahandler E10 (some "a.png") (some "5") none none =
      afterCacheMiss E10 (effectiveName (some "a.png")) (some "5") none none
        ((MIME_TYPES (original_extension_of (effectiveName (some "a.png")))).getD
          "application/octet-stream")
        (outputFilenameOf (effectiveName (some "a.png")) (some "5") none none)
        (original_extension_of (effectiveName (some "a.png"))) :=
  any_cache_get_error_proceeds_to_pipeline E10 (some "a.png") (some "5") none none
    "boom" rfl rfl

/-- C7: on a cache hit the handler returns 200 with exactly the cached
bytes, the MIME type resolved from the format parameter (or the original
extension when the format is absent), and the Content-Disposition header
naming the derived key; moreover the result depends only on the output
store, so neither the source store nor the transform engine is consulted. -/
theorem cache_hit_returns_cached_bytes (env : Env) (fn0 w h f : Option String) (data : Bytes)
    (hfn : truthy fn0 = true)
    (hhit : env.outputGet (outputFilenameOf (effectiveName fn0) w h f) = Except.ok data) :
    dynamicmediahandler env fn0 w h f =
      ({ status := 200, body := Body.bin data,
         mimetype := some ((MIME_TYPES (if truthy f then pyUpper (f.getD "")
                             else original_extension_of (effectiveName fn0))).getD
                            "application/octet-stream"),
         contentDisposition :=
           some ("inline; filename=" ++ outputFilenameOf (effectiveName fn0) w h f) },
       none) ∧
    ∀ env2 : Env, env2.outputGet = env.outputGet →
      dynamicmediahandler env2 fn0 w h f = dynamicmediahandler env fn0 w h f := by
  refine ⟨cache_hit_eq env fn0 w h f data hfn hhit, fun env2 h2 => ?_⟩
  rw [cache_hit_eq env fn0 w h f data hfn hhit,
      cache_hit_eq env2 fn0 w h f data hfn (by rw [h2]; exact hhit)]

/-- C7 witness: a concrete cache hit returns the cached bytes without
touching any other part of the environment. -/
theorem cache_hit_returns_cached_bytes_witness :
    dynamicmediahandler E7 (some "c.png") none none none =
      ({ status := 200, body := Body.bin [5, 6],
         mimetype := some ((MIME_TYPES (if truthy (none : Option String) then
                             pyUpper ((none : Option String).getD "")
                             else original_extension_of (effectiveName (some "c.png")))).getD
                            "application/octet-stream"),
         contentDisposition :=
           some ("inline; filename=" ++
                 outputFilenameOf (effectiveName (some "c.png")) none none none) },
       none) :=
  (cache_hit_returns_cached_bytes E7 (some "c.png") none none none [5, 6] rfl rfl).1

/-- C6: a request without width, height and format whose key is uncached
and whose source resolves is answered 200 with exactly the resolved bytes
and the MIME type of the original extension, and nothing is written to the
output store. -/
theorem no_params_passthrough_no_write (env : Env) (fn0 : Option String)
    (e rfn : String) (b : Bytes)
    (hfn : truthy fn0 = true)
    (hmiss : env.outputGet (outputFilenameOf (effectiveName fn0) none none none) =
      Except.error e)
    (hres : resolveSource env (effectiveName fn0) = Except.ok (rfn, b)) :
    dynamicmediahandler env fn0 none none none =
      ({ status := 200, body := Body.bin b,
         mimetype := some ((MIME_TYPES (original_extension_of (effectiveName fn0))).getD
                            "application/octet-stream"),
         contentDisposition := none }, none) := by
  simp only [dynamicmediahandler, hfn, if_true, hmiss, afterCacheMiss, hres]
  simp [truthy]

/-- C6 witness: a concrete pass-through run returns the stored bytes and
performs no write. -/
theorem no_params_passthrough_no_write_witness :
    dynamicmediahandler E6 (some "b.png") none none none =
      ({ status := 200, body := Body.bin [3, 4],
         mimetype := some ((MIME_TYPES (original_extension_of (effectiveName (some "b.png")))).getD
                            "application/octet-stream"),
         contentDisposition := none }, none) :=
  no_params_passthrough_no_write E6 (some "b.png") "nf" "b.png" [3, 4] rfl rfl rfl

/-- C1 (amended): when the request reaches the Persist step (cache miss,
source resolved, some parameter present, decode, resize, format and
encode all succeed) and the put to the output store fails, the whole
request fails: the response is the 500 processing-error message, the
transformed bytes are not returned, and nothing is recorded as written. -/
theorem put_failure_returns_processing_error_500 (env : Env) (fn0 w h f : Option String)
    (e rfn : String) (b out : Bytes) (img img2 : Img) (fmt : String)
    (hup : env.uploadOk = false)
    (hfn : truthy fn0 = true)
    (hmiss : env.outputGet (outputFilenameOf (effectiveName fn0) w h f) = Except.error e)
    (hres : resolveSource env (effectiveName fn0) = Except.ok (rfn, b))
    (hpar : ¬(truthy w = false ∧ truthy h = false ∧ truthy f = false))
    (hdec : env.decode b = some img)
    (hrz : resizeStep img w h = some img2)
    (hfmt : formatResolve f (original_extension_of (effectiveName fn0)) = some fmt)
    (henc : env.encode img2 fmt = some out) :
    dynamicmediahandler env fn0 w h f = (procError, none) := by
  simp only [dynamicmediahandler, hfn, if_true, hmiss, afterCacheMiss, hres, if_neg hpar,
    transformStep, hdec, hrz, hfmt, henc, hup]
  simp

/-- C1 counterexample: a concrete run in which everything up to the put
succeeds and the put fails is answered with the 500 processing error, not
with 200 and the transformed bytes as the claim states. -/
theorem put_failure_not_transparent_counterexample :
    (dynamicmediahandler E1 (some "a.png") none none (some "png")).1 = procError ∧
    (dynamicmediahandler E1 (some "a.png") none none (some "png")).1.status ≠ 200 := by
  exact ⟨by decide, by decide⟩

/-- C1 witness: the amended theorem applied to the concrete failing-put
environment. -/
theorem put_failure_returns_processing_error_500_witness :
    dynamicmediahandler E1 (some "a.png") none none (some "png") = (procError, none) :=
  put_failure_returns_processing_error_500 E1 (some "a.png") none none (some "png")
    "nf" "a.png" [1] [7, 7] ⟨4, 4, 0⟩ ⟨4, 4, 0⟩ "PNG"
    rfl rfl rfl rfl (by decide) rfl rfl (by decide) rfl

/-- C3 (amended): a provided format that does not normalize (uppercase,
JPG mapped to JPEG) into the supported set is answered 400 Unsupported
format, provided the pipeline reaches the format check: key uncached,
the source or the placeholder resolves, the bytes decode and the geometry
step succeeds.  When both the source and the placeholder are absent the
request instead dies earlier with a 500 (see the counterexample). -/
theorem unsupported_format_400_when_source_resolves (env : Env) (fn0 w h : Option String)
    (fs e rfn : String) (b : Bytes) (img img2 : Img)
    (hfn : truthy fn0 = true)
    (hf : truthy (some fs) = true)
    (hmiss : env.outputGet (outputFilenameOf (effectiveName fn0) w h (some fs)) =
      Except.error e)
    (hres : resolveSource env (effectiveName fn0) = Except.ok (rfn, b))
    (hdec : env.decode b = some img)
    (hrz : resizeStep img w h = some img2)
    (hbad : (if pyUpper fs = "JPG" then "JPEG" else pyUpper fs) ∉ supportedFormats) :
    dynamicmediahandler env fn0 w h (some fs) = (unsupported400, none) := by
  have hpar : ¬(truthy w = false ∧ truthy h = false ∧ truthy (some fs) = false) := by
    intro hcon
    rw [hf] at hcon
    exact absurd hcon.2.2 (by simp)
  have hfr := formatResolve_unsupported fs (original_extension_of (effectiveName fn0)) hf hbad
  simp only [dynamicmediahandler, hfn, if_true, hmiss, afterCacheMiss, hres, if_neg hpar,
    transformStep, hdec, hrz, hfr]

/-- C3 counterexample: with format tiff and both the requested source and
the placeholder absent from the source store, the response is 500, not
the 400 the claim asserts for every request regardless of source
validity. -/
theorem unsupported_format_500_when_both_sources_missing :
    (dynamicmediahandler E3 (some "a.png") none none (some "tiff")).1.status = 500 ∧
    (dynamicmediahandler E3 (some "a.png") none none (some "tiff")).1.status ≠ 400 := by
  exact ⟨by decide, by decide⟩

/-- C3 witness: the amended theorem applied to a concrete run with format
tiff and a resolvable source. -/
theorem unsupported_format_400_when_source_resolves_witness :
    dynamicmediahandler E3b (some "a.png") none none (some "tiff") = (unsupported400, none) :=
  unsupported_format_400_when_source_resolves E3b (some "a.png") none none
    "tiff" "nf" "a.png" [1] ⟨4, 4, 0⟩ ⟨4, 4, 0⟩
    rfl rfl rfl rfl rfl rfl (by decide)

/-- C9: a provided width or height that does not parse as an integer is
not rejected with 400: the int() failure is caught by the generic
processing handler and the response is the 500 processing error (given an
uncached key, a resolving source and decodable bytes). -/
theorem nonnumeric_dimension_gives_500 (env : Env) (fn0 w h f : Option String)
    (e rfn : String) (b : Bytes) (img : Img)
    (hfn : truthy fn0 = true)
    (hmiss : env.outputGet (outputFilenameOf (effectiveName fn0) w h f) = Except.error e)
    (hres : resolveSource env (effectiveName fn0) = Except.ok (rfn, b))
    (hdec : env.decode b = some img)
    (hbad : (truthy w = true ∧ pyInt? (w.getD "") = none) ∨
            (truthy h = true ∧ pyInt? (h.getD "") = none)) :
    dynamicmediahandler env fn0 w h f = (procError, none) := by
  have hpar : ¬(truthy w = false ∧ truthy h = false ∧ truthy f = false) := by
    rcases hbad with ⟨hw, _⟩ | ⟨hh, _⟩
    · intro hcon
      rw [hcon.1] at hw
      exact absurd hw (by simp)
    · intro hcon
      rw [hcon.2.1] at hh
      exact absurd hh (by simp)
  have hrz := resizeStep_parse_fail img w h hbad
  simp only [dynamicmediahandler, hfn, if_true, hmiss, afterCacheMiss, hres, if_neg hpar,
    transformStep, hdec, hrz]

/-- C9 witness: width abc on a resolvable decodable source gives the 500
processing error. -/
theorem nonnumeric_dimension_gives_500_witness :
    dynamicmediahandler E9 (some "d.png") (some "abc") none none = (procError, none) :=
  nonnumeric_dimension_gives_500 E9 (some "d.png") (some "abc") none none
    "nf" "d.png" [1] ⟨10, 10, 0⟩
    rfl rfl rfl rfl (Or.inl ⟨rfl, by decide⟩)

/-- C4 (amended): when only the width is given, the engine computes the
target height as the int-truncation (floor, for these nonnegative values)
of originalHeight x width / originalWidth -- not the nearest-integer
rounding -- and then applies the never-enlarge aspect-preserving
bounding-box fit to (width, computedHeight). -/
theorem width_only_height_truncated_then_fit (img : Img) (ws : String) (w : Int)
    (hw : truthy (some ws) = true)
    (hparse : pyInt? ws = some w)
    (hiw : img.w ≠ 0) :
    resizeStep img (some ws) none =
      Option.map (fun p => { img with w := p.1, h := p.2 })
        (thumbnailFit img.w img.h w
          (((Frac.ofInt (img.h : Int)).mul
             ((Frac.ofInt w).div (Frac.ofInt (img.w : Int)))).trunc)) := by
  have hth : truthy (none : Option String) = false := rfl
  simp only [resizeStep, hw, hth, Option.getD_some, hparse, if_neg hiw]
  simp only [Bool.false_eq_true, and_false, if_false, if_true, eq_self_iff_true, and_true,
    true_and]
  rcases hfit : thumbnailFit img.w img.h w
      (((Frac.ofInt (img.h : Int)).mul
         ((Frac.ofInt w).div (Frac.ofInt (img.w : Int)))).trunc) with _ | p
  · simp [hfit]
  · simp [hfit]

/-- C4 counterexample: on a 4x7 source with width 1 the engine truncates
7/4 to 1 and produces a 1x1 image, while the claimed rounding of 7/4
gives 2 and the fit of (1, 2) is the different size (1, 2). -/
theorem width_only_height_not_rounded_counterexample :
    resizeStep ⟨4, 7, 0⟩ (some "1") none = some ⟨1, 1, 0⟩ ∧
    round ((7 : ℚ) * ((1 : ℚ) / (4 : ℚ))) = 2 ∧
    thumbnailFit 4 7 1 2 = some (1, 2) ∧
    some (⟨1, 1, 0⟩ : Img) ≠ some (⟨1, 2, 0⟩ : Img) := by
  refine ⟨by decide, by norm_num [round_eq], by decide, by decide⟩

/-- C4 witness: the amended theorem applied to the 400x200 source with
width 100, truncating 200 times 100/400 to 50. -/
theorem width_only_height_truncated_then_fit_witness :
    resizeStep ⟨400, 200, 0⟩ (some "100") none =
      Option.map (fun p => { (⟨400, 200, 0⟩ : Img) with w := p.1, h := p.2 })
        (thumbnailFit 400 200 100
          (((Frac.ofInt ((400 : Nat) : Int)).mul
             ((Frac.ofInt 100).div (Frac.ofInt ((400 : Nat) : Int)))).trunc)) := by
  have h := width_only_height_truncated_then_fit ⟨400, 200, 0⟩ "100" 100
    rfl (by decide) (by decide)
  exact h

/-- C5 (amended): for a sourceName containing a dot the derived key is
baseName_width_height.ext where baseName is the segment of the name
before the FIRST dot (not the name with its extension stripped), the
width and height render as their literal strings with None for absent,
and the extension is the lowercased format when given, else the
lowercased uppercased substring after the last dot. -/
theorem derived_key_uses_segment_before_first_dot (fn : String) (p q r e : List Char)
    (w h f : Option String)
    (hp : '.' ∉ p) (hq : fn.data = p ++ '.' :: q)
    (he : '.' ∉ e) (hr : fn.data = r ++ '.' :: e) :
    outputFilenameOf fn w h f =
      String.mk p ++ "_" ++ render w ++ "_" ++ render h ++ "." ++
        (if truthy f then pyLower (f.getD "")
         else pyLower (pyUpper (String.mk e))) := by
  have hsplit_ne : splitOnDot fn.data ≠ [] := splitOnDot_ne_nil _
  have hhead : (pySplitDot fn).headD "" = String.mk p := by
    unfold pySplitDot
    rw [hq, splitOnDot_append_dot p q hp, headD_map_mk]
    rfl
  have hlast : (pySplitDot fn).getLastD "" = String.mk e := by
    unfold pySplitDot
    rw [getLastD_map_mk _ hsplit_ne]
    congr 1
    rw [List.getLastD_eq_getLast?, hr, getLast?_splitOnDot_append, splitOnDot_no_dot e he,
        List.getLast?_singleton]
    rfl
  unfold outputFilenameOf original_extension_of
  rw [hhead, hlast]

/-- C5 counterexample: for the two-dot name a.b.png the derived key keeps
only the segment before the first dot, a_None_None.png, not the
a.b_None_None.png the claim prescribes for extension-stripping. -/
theorem derived_key_multi_dot_counterexample :
    outputFilenameOf "a.b.png" none none none = "a_None_None.png" ∧
    "a_None_None.png" ≠ "a.b_None_None.png" := by
  exact ⟨by decide, by decide⟩

/-- C5 witness: the amended key shape at the concrete name img.png with
width 5. -/
theorem derived_key_uses_segment_before_first_dot_witness :
    outputFilenameOf "img.png" (some "5") none none =
      String.mk ['i', 'm', 'g'] ++ "_" ++ render (some "5") ++ "_" ++ render none ++ "." ++
        (if truthy (none : Option String) then pyLower ((none : Option String).getD "")
         else pyLower (pyUpper (String.mk ['p', 'n', 'g']))) :=
  derived_key_uses_segment_before_first_dot "img.png"
    ['i', 'm', 'g'] ['p', 'n', 'g'] ['i', 'm', 'g'] ['p', 'n', 'g']
    (some "5") none none
    (by decide) (by decide) (by decide) (by decide)

/-- C2: requesting a missing source with the placeholder present is NOT
equivalent to requesting the placeholder directly: both serve the same
placeholder bytes, but the first keeps the MIME type (and extension and
key derivation) of the originally requested name -- image/png for
missing.png -- while the direct request gets image/jpeg, because the
filename reassignment after the fallback happens only after every
extension-derived value has been computed. -/
theorem placeholder_fallback_keeps_original_extension_bug :
    (dynamicmediahandler E2 (some "missing.png") none none none).1.body =
      (dynamicmediahandler E2 (some "no-image.jpg") none none none).1.body ∧
    (dynamicmediahandler E2 (some "missing.png") none none none).1.mimetype =
      some "image/png" ∧
    (dynamicmediahandler E2 (some "no-image.jpg") none none none).1.mimetype =
      some "image/jpeg" ∧
    (dynamicmediahandler E2 (some "missing.png") none none none).1 ≠
      (dynamicmediahandler E2 (some "no-image.jpg") none none none).1 := by
  refine ⟨by decide, by decide, by decide, by decide⟩

/-- C8: the spec's test vector.  For photo.png with width 100 on a
400x200 source and an empty cache, the derived key is photo_100_None.png
and the transformed image has dimensions (100, 50); the encoder of E8
writes the dimensions into the body, so the body certifies them. -/
theorem photo_png_width_100_derived_key_and_dims :
    outputFilenameOf "photo.png" (some "100") none none = "photo_100_None.png" ∧
    dynamicmediahandler E8 (some "photo.png") (some "100") none none =
      ({ status := 200, body := Body.bin [100, 50, 2],
         mimetype := some "image/png",
         contentDisposition := some "inline; filename=photo_100_None.png" },
       some ("photo_100_None.png", [100, 50, 2])) := by
  refine ⟨by decide, by decide⟩
